import Mathlib

/-!
Shallow embedding of `src/terminal_tattoo.py` (terminal_tattoo).

The Python functions are modelled as Lean functions.  A Python call can
end in three ways: return a value, call `sys.exit(code)`, or raise an
unhandled exception; `PyResult` captures the three outcomes.  Regular
expression uses (`re.match`, `re.search`) are modelled by explicit
character-list scans that reproduce the behaviour of the concrete
patterns appearing in the source.
-/

/-- Outcome of running a piece of the Python program: a returned value,
a `sys.exit(code)`, or an unhandled exception (named by its Python
exception class). -/
inductive PyResult (α : Type) where
  | ok (val : α)
  | exited (code : Int)
  | error (exc : String)
deriving DecidableEq, Repr

/-- Sequencing of Python evaluation: an exit or exception propagates. -/
def PyResult.bind {α β : Type} : PyResult α → (α → PyResult β) → PyResult β
  | .ok a, f => f a
  | .exited c, _ => .exited c
  | .error e, _ => .error e

-- Constants from the top of terminal_tattoo.py.
def DEFAULT_SIZE : Int := 45
def DEFAULT_POS : String := "tR"
def DEFAULT_FGC : String := "fK"
def DEFAULT_BGC : String := "bW"

def POSITION_CODES : List String :=
  ["pT", "pTL", "pTR", "pB", "pBL", "pBR", "pC", "pL", "pR"]

def RETINA_HCELL_PIXELS : Int := 14
def RETINA_VCELL_PIXELS : Int := 28
def RETINA_H_OFFSET : Int := 20
def RETINA_V_OFFSET : Int := 14

def EXIT_INVALID_FG : Int := -1
def EXIT_INVALID_BG : Int := -2
def EXIT_DOES_NOT_FIT : Int := -3

/-- The character class `[0-9a-fA-F]` of the source's color regexes. -/
def isHexDigitPy (c : Char) : Bool :=
  ('0' ≤ c && c ≤ '9') || ('a' ≤ c && c ≤ 'f') || ('A' ≤ c && c ≤ 'F')

/-- Value of one hex digit, as Python's `int(_, 16)` computes it on a
character of the class `[0-9a-fA-F]`. -/
def hexDigitVal (c : Char) : Nat :=
  if '0' ≤ c && c ≤ '9' then c.toNat - '0'.toNat
  else if 'a' ≤ c && c ≤ 'f' then c.toNat - 'a'.toNat + 10
  else c.toNat - 'A'.toNat + 10

/-- `hex_byte_to_int` on a two-character hex group: `int(s, 16)`. -/
def hexPairVal (a b : Char) : Nat := 16 * hexDigitVal a + hexDigitVal b

/-- `re.match(r'[#]?([0-9a-fA-F]{6})', code)` restricted to group 1:
anchored at the start, an optional `#`, then six hex digits (anything
after them is ignored).  `none` models a failed match.  When the string
starts with `#` the engine cannot backtrack to the empty option, because
`#` itself is not a hex digit. -/
def sanitizeChars (cs : List Char) : Option (List Char) :=
  let body := if cs.head? = some '#' then cs.tail else cs
  if (body.take 6).length = 6 && (body.take 6).all isHexDigitPy
  then some (body.take 6) else none

/-- `sanitize_html_color`: returns `m.group(1)`; when the match fails,
`m` is `None` and `m.group(1)` raises `AttributeError`. -/
def sanitize_html_color (code : String) : PyResult String :=
  match sanitizeChars code.data with
  | some l => .ok (String.mk l)
  | none => .error "AttributeError"

/-- `re.search(r'[#]?[0-9a-fA-F]{6}', color)`: the matched text of the
leftmost match, `#`-greedy at each position, or `none`. -/
def searchHtmlColor : List Char → Option (List Char)
  | [] => none
  | c :: rest =>
    if c = '#' && (rest.take 6).length = 6 && (rest.take 6).all isHexDigitPy then
      some ('#' :: rest.take 6)
    else if ((c :: rest).take 6).length = 6 && ((c :: rest).take 6).all isHexDigitPy then
      some ((c :: rest).take 6)
    else searchHtmlColor rest

/-- `validate_html_color(color)`: `re.search` then `m.group(0) == color`.
A `None` argument raises `TypeError` inside `re.search`; a string with no
six-hex-digit run makes `m` `None`, so `m.group(0)` raises
`AttributeError`. -/
def validate_html_color (color : Option String) : PyResult Bool :=
  match color with
  | none => .error "TypeError"
  | some c =>
    match searchHtmlColor c.data with
    | none => .error "AttributeError"
    | some m => .ok (decide (String.mk m = c))

/-- `html_to_888`: `re.match` of three two-hex-digit groups against the
string, then each group through `hex_byte_to_int`.  A failed match makes
`m.group('red')` raise `AttributeError`. -/
def html_to_888 (html_str : String) : PyResult (Nat × Nat × Nat) :=
  match html_str.data with
  | c0 :: c1 :: c2 :: c3 :: c4 :: c5 :: _ =>
    if [c0, c1, c2, c3, c4, c5].all isHexDigitPy
    then .ok (hexPairVal c0 c1, hexPairVal c2 c3, hexPairVal c4 c5)
    else .error "AttributeError"
  | _ => .error "AttributeError"

/-- The argparse namespace produced by `config_parser`, restricted to the
fields the embedded functions read.  `store_true` flags default to
`false`; optional value arguments (`-s`, `--f`, `--b`) default to `None`
and are modelled as `Option`. -/
structure Args where
  s : Option Int := none
  pT : Bool := false
  pTL : Bool := false
  pTR : Bool := false
  pB : Bool := false
  pBL : Bool := false
  pBR : Bool := false
  pC : Bool := false
  pL : Bool := false
  pR : Bool := false
  fR : Bool := false
  fG : Bool := false
  fB : Bool := false
  fW : Bool := false
  fK : Bool := false
  fC : Bool := false
  fM : Bool := false
  fY : Bool := false
  fg : Bool := false
  f : Option String := none
  bR : Bool := false
  bG : Bool := false
  bB : Bool := false
  bW : Bool := false
  bK : Bool := false
  bC : Bool := false
  bM : Bool := false
  bY : Bool := false
  bg : Bool := false
  b : Option String := none
deriving DecidableEq, Repr

/-- A run with no optional arguments supplied: every attribute holds its
argparse default. -/
def defaultArgs : Args := {}

/-- Attribute names present on the parsed namespace: every argument
`config_parser` declares gets an attribute (with its default) whether or
not the flag was supplied on the command line.  Python's `name in args`
on an `argparse.Namespace` tests membership in this set. -/
def namespaceAttrs : List String :=
  ["text", "s", "font", "verbose", "out_path", "alpha",
   "pT", "pTL", "pTR", "pB", "pBL", "pBR", "pC", "pL", "pR",
   "margin",
   "fR", "fG", "fB", "fW", "fK", "fC", "fM", "fY", "fg", "f",
   "bR", "bG", "bB", "bW", "bK", "bC", "bM", "bY", "bg", "b"]

/-- `check_position`: iterates over `POSITION_CODES` and takes the first
`p` with `p in args`.  Since `in` on a namespace is attribute-name
membership — not flag truth — the test depends only on the parser's
declared attribute names, never on `args`'s values. -/
def check_position (args : Args) : String :=
  match POSITION_CODES.find? (fun p => namespaceAttrs.contains p) with
  | some p => p
  | none => DEFAULT_POS

/-- `check_fg_color`.  When `args.f` is supplied the source validates and
reads `args.b` (the background argument).  The preset loop walks
`['f', 'fR', 'fG', 'fB', 'fW', 'fK', 'fC', 'fM', 'fY', 'fg']`;
`getattr(args, 'f') == True` is never `True` for a string or `None`, and
the lookup table `color_in_hex` has the key `'ff'` where the loop asks
for `'fB'`, so a set `fB` flag raises `KeyError`.  The final value goes
through `sanitize_html_color`. -/
def check_fg_color (args : Args) : PyResult String :=
  let init : PyResult String :=
    if args.f.isSome then
      PyResult.bind (validate_html_color args.b) (fun valid =>
        if valid then .ok (args.b.getD "") else .exited EXIT_INVALID_FG)
    else .ok DEFAULT_FGC
  PyResult.bind init (fun ret0 =>
    let r := ret0
    let r := if args.fR then "FF0000" else r
    let r := if args.fG then "00FF00" else r
    if args.fB then .error "KeyError"
    else
      let r := if args.fW then "FFFFFF" else r
      let r := if args.fK then "000000" else r
      let r := if args.fC then "00FFFF" else r
      let r := if args.fM then "FF00ff" else r
      let r := if args.fY then "FFFF00" else r
      let r := if args.fg then "A9A9A9" else r
      sanitize_html_color r)

/-- `check_bg_color`: same shape as `check_fg_color` but reading the
background arguments throughout; its `color_in_hex` table has all nine
keys, `bB` included. -/
def check_bg_color (args : Args) : PyResult String :=
  let init : PyResult String :=
    if args.b.isSome then
      PyResult.bind (validate_html_color args.b) (fun valid =>
        if valid then .ok (args.b.getD "") else .exited EXIT_INVALID_BG)
    else .ok DEFAULT_BGC
  PyResult.bind init (fun ret0 =>
    let r := ret0
    let r := if args.bR then "FF0000" else r
    let r := if args.bG then "00FF00" else r
    let r := if args.bB then "0000FF" else r
    let r := if args.bW then "FFFFFF" else r
    let r := if args.bK then "000000" else r
    let r := if args.bC then "00FFFF" else r
    let r := if args.bM then "FF00ff" else r
    let r := if args.bY then "FFFF00" else r
    let r := if args.bg then "A9A9A9" else r
    sanitize_html_color r)

/-- `check_size`: `if args.s:` — Python truthiness, so a supplied `0` is
treated like an absent argument. -/
def check_size (args : Args) : Int :=
  match args.s with
  | some v => if v ≠ 0 then v else DEFAULT_SIZE
  | none => DEFAULT_SIZE

/-- `get_terminal_pixel_size`: pure linear pixel-dimension computation. -/
def get_terminal_pixel_size (columns lines h_pix v_pix h_offset v_offset : Int) :
    Int × Int :=
  let height := lines * v_pix + v_offset
  let width := columns * h_pix + h_offset
  (width, height)

/-- `fit_check`: the source's body is a bare `return`, so the call
evaluates to `None` for every input.  `none` models Python's `None`;
a genuine boolean answer would be `some b`. -/
def fit_check (render_text_width render_text_height margin w h : Int) :
    Option Bool :=
  none

/-- `get_text_anchor_pos`: the source's body is a bare `return` after the
docstring, so the call evaluates to `None` for every input; note the
signature takes no margin argument. -/
def get_text_anchor_pos (pos : String) (text_w text_h image_w image_h : Int) :
    Option (Int × Int) :=
  none

/-- Truthiness of an optional boolean, as Python's `not` sees it:
`None` is falsy. -/
def truthy : Option Bool → Bool
  | none => false
  | some b => b

/-- The fit gate in `main`: `if not fit_check(...): exit(EXIT_DOES_NOT_FIT)`.
`true` means the run aborts with `EXIT_DOES_NOT_FIT`. -/
def main_aborts_does_not_fit (tw th margin w h : Int) : Bool :=
  ! truthy (fit_check tw th margin w h)

/-! ## Helper lemmas -/

theorem isHexDigitPy_ne_hash {c : Char} (h : isHexDigitPy c = true) : ¬ c = '#' := by
  intro e
  subst e
  exact absurd h (by decide)

theorem sanitizeChars_hex6 (c0 c1 c2 c3 c4 c5 : Char)
    (h : [c0, c1, c2, c3, c4, c5].all isHexDigitPy = true) :
    sanitizeChars [c0, c1, c2, c3, c4, c5] = some [c0, c1, c2, c3, c4, c5] := by
  have h0 : isHexDigitPy c0 = true := by
    simp only [List.all_cons, Bool.and_eq_true] at h
    exact h.1
  have hcond : ¬ (List.head? [c0, c1, c2, c3, c4, c5] = some '#') := by
    intro e
    rw [List.head?_cons, Option.some.injEq] at e
    exact isHexDigitPy_ne_hash h0 e
  have ht : List.take 6 [c0, c1, c2, c3, c4, c5] = [c0, c1, c2, c3, c4, c5] := rfl
  simp only [sanitizeChars, if_neg hcond, ht, h]
  simp

theorem sanitizeChars_hash_hex6 (c0 c1 c2 c3 c4 c5 : Char)
    (h : [c0, c1, c2, c3, c4, c5].all isHexDigitPy = true) :
    sanitizeChars ('#' :: [c0, c1, c2, c3, c4, c5]) = some [c0, c1, c2, c3, c4, c5] := by
  have ht : List.take 6 [c0, c1, c2, c3, c4, c5] = [c0, c1, c2, c3, c4, c5] := rfl
  simp only [sanitizeChars, List.head?_cons, if_pos rfl, List.tail_cons, ht, h]
  simpa using h

/-! ## Claim theorems -/

/-- C1: the claim says `fit_check` reports does-not-fit exactly when
`textWidth + 2*margin > canvasWidth` or `textHeight + 2*margin >
canvasHeight`, and the run aborts with `EXIT_DOES_NOT_FIT` in that case
and only in that case.  The code's `fit_check` is a stub that returns
`None` for every input, so `main`'s `if not fit_check(...)` aborts every
run — including the claim's fitting example, a 700×20 text box with
margin 25 on an 800×400 canvas, which satisfies both fit inequalities. -/
theorem fit_check_stub_aborts_every_run :
    (∀ tw th m w h : Int,
        fit_check tw th m w h = none ∧
        main_aborts_does_not_fit tw th m w h = true) ∧
    ((700 : Int) + 2 * 25 ≤ 800 ∧ (20 : Int) + 2 * 25 ≤ 400) ∧
    main_aborts_does_not_fit 700 20 25 800 400 = true := by
  refine ⟨fun tw th m w h => ⟨rfl, rfl⟩, ⟨by norm_num, by norm_num⟩, rfl⟩

/-- C2: the claim says the computed top-left text coordinate follows the
anchor tables (e.g. top-left on an 800×400 canvas with margin 25 and a
100×20 text box yields (25,25)).  The code's `get_text_anchor_pos` is a
stub that returns `None` for every input (and its signature takes no
margin at all), so it never yields any coordinate. -/
theorem get_text_anchor_pos_stub_returns_no_coordinate :
    (∀ (pos : String) (tw th iw ih : Int),
        get_text_anchor_pos pos tw th iw ih = none) ∧
    ¬ get_text_anchor_pos "pTL" 100 20 800 400 = some (25, 25) := by
  exact ⟨fun pos tw th iw ih => rfl, by decide⟩

/-- C3: the claim says an explicit, valid `--f` value resolves the
foreground to that value, independent of the background selection.  In
the code, when `args.f` is supplied, `check_fg_color` validates and reads
`args.b` instead: with `--f 123456 --b ABCDEF` the foreground resolves to
`ABCDEF`, and with `--f 123456` and no `--b` the call crashes with
`TypeError` (`re.search` on `None`). -/
theorem check_fg_color_reads_background_argument :
    check_fg_color { defaultArgs with f := some "123456", b := some "ABCDEF" } =
      .ok "ABCDEF" ∧
    ¬ ("ABCDEF" : String) = "123456" ∧
    check_fg_color { defaultArgs with f := some "123456" } = .error "TypeError" := by
  exact ⟨rfl, by decide, rfl⟩

/-- C4: the claim says each of the nine named presets, as foreground or
background, resolves to its documented constant (blue = `0000FF`).  The
background table is complete and `--bB` resolves to `0000FF`, and red's
RGB decomposition is (255,0,0); but the foreground table's key for blue
is misspelt `'ff'`, so selecting the blue foreground preset `--fB` raises
`KeyError` instead of returning `0000FF`. -/
theorem check_fg_color_blue_preset_keyerror :
    check_fg_color { defaultArgs with fB := true } = .error "KeyError" ∧
    check_bg_color { defaultArgs with bB := true } = .ok "0000FF" ∧
    html_to_888 "FF0000" = .ok (255, 0, 0) := by
  exact ⟨rfl, rfl, rfl⟩

/-- C5: the claim says every invalid explicit color string terminates the
run with the distinct invalid-color exit code for the side concerned, and
with no other outcome.  In the code, `validate_html_color` calls
`m.group(0)` without checking that `re.search` matched: strings with no
six-hex-digit run, such as the spec's own examples `12345` and `GGHHII`,
crash with `AttributeError` instead of exiting with `EXIT_INVALID_BG`;
only invalid strings that do contain a six-hex run (e.g. `1234567`)
reach the distinct exit code. -/
theorem invalid_color_without_hex_run_crashes :
    check_bg_color { defaultArgs with b := some "12345" } = .error "AttributeError" ∧
    check_bg_color { defaultArgs with b := some "GGHHII" } = .error "AttributeError" ∧
    check_bg_color { defaultArgs with b := some "1234567" } = .exited EXIT_INVALID_BG := by
  exact ⟨rfl, rfl, rfl⟩

/-- C6: the claim says an absent foreground selection resolves to
`000000` and an absent background selection to `FFFFFF`.  In the code the
defaults `DEFAULT_FGC = "fK"` and `DEFAULT_BGC = "bW"` are flag codes,
not hex values; they flow into `sanitize_html_color`, whose `re.match`
fails, so both resolvers crash with `AttributeError` on a default run
instead of returning any ColorSpec. -/
theorem default_color_resolution_crashes :
    check_fg_color defaultArgs = .error "AttributeError" ∧
    check_bg_color defaultArgs = .error "AttributeError" ∧
    DEFAULT_FGC = "fK" ∧ DEFAULT_BGC = "bW" := by
  exact ⟨rfl, rfl, rfl, rfl⟩

/-- C7: the claim says the resolved position is top-right when no
position flag is supplied, and the named position when exactly one flag
is supplied.  The code tests `p in args`, which on an argparse namespace
is attribute-name membership and is true for every declared flag, so the
first iteration always wins: `check_position` returns `"pT"` (top
center) for every `args`, including a default run and a run with
`--pBR`; the fallback `DEFAULT_POS = "tR"` (not even a member of
`POSITION_CODES`) is unreachable. -/
theorem check_position_always_returns_top_center :
    (∀ args : Args, check_position args = "pT") ∧
    check_position defaultArgs = "pT" ∧
    check_position { defaultArgs with pBR := true } = "pT" ∧
    DEFAULT_POS = "tR" ∧
    POSITION_CODES.contains "tR" = false := by
  exact ⟨fun args => rfl, rfl, rfl, rfl, by decide⟩

/-- C8: dimension resolution is the pure linear function
width = columns·h_pix + h_offset, height = lines·v_pix + v_offset, in
exact integer arithmetic; with the Retina cell profile (14,28,20,14),
an 80×24 terminal yields a 1140×686 canvas. -/
theorem get_terminal_pixel_size_linear :
    (∀ columns lines h_pix v_pix h_offset v_offset : Int,
        get_terminal_pixel_size columns lines h_pix v_pix h_offset v_offset =
          (columns * h_pix + h_offset, lines * v_pix + v_offset)) ∧
    get_terminal_pixel_size 80 24 RETINA_HCELL_PIXELS RETINA_VCELL_PIXELS
      RETINA_H_OFFSET RETINA_V_OFFSET = (1140, 686) := by
  exact ⟨fun columns lines h_pix v_pix h_offset v_offset => rfl, by decide⟩

/-- C9: for every string of exactly six hex digits, sanitizing it with a
leading `#` and without one yields the same bare six-hex-digit value (the
string itself), and converting either normalized form with `html_to_888`
yields the same (r,g,b) triple, equal to the three 2-digit groups each
parsed as base-16. -/
theorem sanitize_hash_agnostic_and_rgb (c0 c1 c2 c3 c4 c5 : Char)
    (h : [c0, c1, c2, c3, c4, c5].all isHexDigitPy = true) :
    sanitize_html_color (String.mk [c0, c1, c2, c3, c4, c5]) =
      .ok (String.mk [c0, c1, c2, c3, c4, c5]) ∧
    sanitize_html_color (String.mk ('#' :: [c0, c1, c2, c3, c4, c5])) =
      .ok (String.mk [c0, c1, c2, c3, c4, c5]) ∧
    html_to_888 (String.mk [c0, c1, c2, c3, c4, c5]) =
      .ok (hexPairVal c0 c1, hexPairVal c2 c3, hexPairVal c4 c5) := by
  refine ⟨?_, ?_, ?_⟩
  · show (match sanitizeChars [c0, c1, c2, c3, c4, c5] with
      | some l => PyResult.ok (String.mk l)
      | none => PyResult.error "AttributeError") =
        PyResult.ok (String.mk [c0, c1, c2, c3, c4, c5])
    rw [sanitizeChars_hex6 c0 c1 c2 c3 c4 c5 h]
  · show (match sanitizeChars ('#' :: [c0, c1, c2, c3, c4, c5]) with
      | some l => PyResult.ok (String.mk l)
      | none => PyResult.error "AttributeError") =
        PyResult.ok (String.mk [c0, c1, c2, c3, c4, c5])
    rw [sanitizeChars_hash_hex6 c0 c1 c2 c3 c4 c5 h]
  · show (if [c0, c1, c2, c3, c4, c5].all isHexDigitPy
        then PyResult.ok (hexPairVal c0 c1, hexPairVal c2 c3, hexPairVal c4 c5)
        else PyResult.error "AttributeError") =
        PyResult.ok (hexPairVal c0 c1, hexPairVal c2 c3, hexPairVal c4 c5)
    rw [h]
    simp

/-- Witness for C9 at the concrete hex string `1A2b3C`. -/
theorem sanitize_hash_agnostic_and_rgb_witness :
    sanitize_html_color "1A2b3C" = .ok "1A2b3C" ∧
    sanitize_html_color "#1A2b3C" = .ok "1A2b3C" ∧
    html_to_888 "1A2b3C" = .ok (26, 43, 60) := by
  have h := sanitize_hash_agnostic_and_rgb '1' 'A' '2' 'b' '3' 'C' (by decide)
  exact ⟨h.1, h.2.1, h.2.2⟩

/-- C10: `check_size` treats a supplied point size of 0 like an omitted
one (Python truthiness in `if args.s:`): both resolve to the default 45,
while every non-zero supplied size is returned unchanged. -/
theorem check_size_zero_like_absent (v : Int) (hv : v ≠ 0) :
    check_size defaultArgs = 45 ∧
    check_size { defaultArgs with s := some 0 } = 45 ∧
    check_size { defaultArgs with s := some v } = v := by
  refine ⟨rfl, rfl, ?_⟩
  simp [check_size, hv]

/-- Witness for C10 at the concrete supplied size 7. -/
theorem check_size_zero_like_absent_witness :
    check_size defaultArgs = 45 ∧
    check_size { defaultArgs with s := some 0 } = 45 ∧
    check_size { defaultArgs with s := some 7 } = 7 :=
  check_size_zero_like_absent 7 (by decide)
